import Mathlib

/-!
Verification development for the ebike-g4 / ebike-controller motor-control
core.  The throttle conditioner is embedded from
`src/ebike-controller/src/throttle.c`, its configuration constants from
`src/ebike-controller/include/project_parameters.h`, and the two periodic
execution contexts from `src/ebike-g4/src/main.c`.  Machine `float` values
are modelled as exact rationals; external collaborators (the biquad input
filter, the ADC, the CORDIC trigonometric unit, hardware GPIO/PWM/watchdog
registers) are modelled as explicit inputs, parameters, or emitted effect
events.
-/

/-! ## Configuration constants

Constants present in `src/ebike-controller/include/project_parameters.h`
are embedded directly.  The constants that live in `throttle.h` (a file of
this repository that is not under `src/`) are modelled from the spec and
from the commented-out copies of the same defines in
`project_parameters.h` lines 239-244. -/

/-- THROTTLE_OUTPUT_MIN, project_parameters.h line 260. -/
def THROTTLE_OUTPUT_MIN : ℚ := 0

/-- THROTTLE_OUTPUT_MAX, project_parameters.h line 261. -/
def THROTTLE_OUTPUT_MAX : ℚ := 99/100

/-- THROTTLE_MIN_DEFAULT, project_parameters.h line 242 (0.85 V). -/
def THROTTLE_MIN_DEFAULT : ℚ := 17/20

/-- THROTTLE_MAX_DEFAULT, project_parameters.h line 243 (2.20 V). -/
def THROTTLE_MAX_DEFAULT : ℚ := 11/5

/-- FULLSCALE_THROTTLE, project_parameters.h line 228 (5 A). -/
def FULLSCALE_THROTTLE : ℚ := 5

/-- Modelled from the spec: THROTTLE_START_TIME is defined in throttle.h,
which is not under src/; the spec (deadtime of 500 samples followed by 500
averaged samples) and the commented define in project_parameters.h line
239 give 1000. -/
def THROTTLE_START_TIME : ℕ := 1000

/-- Modelled from the spec: THROTTLE_START_DEADTIME is defined in
throttle.h, which is not under src/; the spec and the commented define in
project_parameters.h line 240 give 500. -/
def THROTTLE_START_DEADTIME : ℕ := 500

/-- Modelled from the spec: THROTTLE_RANGE_LIMIT (the re-calibration guard
margin) is defined in throttle.h, which is not under src/; the commented
define in project_parameters.h line 241 gives 0.05 V. -/
def THROTTLE_RANGE_LIMIT : ℚ := 1/20

/-- Modelled from the spec: THROTTLE_DROPOUT (the supply dropout margin)
is defined in throttle.h, which is not under src/; the commented define in
project_parameters.h line 244 gives 0.72 V. -/
def THROTTLE_DROPOUT : ℚ := 18/25

/-- Modelled from the spec: THROTTLE_SLEW_RATE (maximum upward change per
1 kHz period) is defined in throttle.h, which is not under src/; the spec
and THROTTLE_RISE_DEFAULT (project_parameters.h line 256) give 0.0005. -/
def THROTTLE_SLEW_RATE : ℚ := 1/2000

/-- Modelled from the spec: THROTTLE_HYST_LOW (the lower hysteresis
threshold) is defined in throttle.h, which is not under src/; the default
hysteresis band THROTTLE_HYST_DEFAULT (project_parameters.h line 246) is
0.025. -/
def THROTTLE_HYST_LOW : ℚ := 1/40

/-- Modelled from the spec: THROTTLE_HYST_HIGH (the upper hysteresis
threshold) is defined in throttle.h, which is not under src/; it sits one
default hysteresis band (0.025) above the lower threshold. -/
def THROTTLE_HYST_HIGH : ℚ := 1/20

/-! ## Throttle conditioner state (throttle.c) -/

/-- State of one analog throttle channel: the fields of
`Throttle_Analog_Type` used by `throttle_process` (throttle.c lines
96-181), together with the file-scope global `prev_output`
(throttle.c line 17) that holds the last returned value for rate
limiting. -/
structure ThrottleState where
  startup_count : ℕ
  min : ℚ
  max : ℚ
  scale_factor : ℚ
  /-- hysteresis latch `sThrottle.state` -/
  state : Bool
  /-- file-scope global `prev_output` (initialized to 0.0f in throttle.c) -/
  prev_output : ℚ
  deriving DecidableEq

/-- Modelled from the spec: the power-on state of the channel.
THROTTLE_ANALOG_DEFAULTS is defined in throttle.h, which is not under
src/; the spec's averaging phase ("minimum bound = accumulated average")
requires the accumulator `min` to start at zero, the latch starts off, and
`prev_output` is initialized to 0.0f in src (throttle.c line 17). -/
def initThrottle : ThrottleState :=
  { startup_count := 0, min := 0, max := 0, scale_factor := 0,
    state := false, prev_output := 0 }

/-- Clipping of the computed command at 0% and 100%
(throttle.c lines 150-151): two sequential compare-and-assign steps. -/
def clampOutput (x : ℚ) : ℚ :=
  let y := if x < THROTTLE_OUTPUT_MIN then THROTTLE_OUTPUT_MIN else x
  if y > THROTTLE_OUTPUT_MAX then THROTTLE_OUTPUT_MAX else y

/-- Regular command computation `(Throttle_filt.Y - min) * scale_factor`,
clipped (throttle.c lines 148-151).  This is the command before the
hysteresis gate and the slew limiter. -/
def throttle_raw_cmd (s : ThrottleState) (filt : ℚ) : ℚ :=
  clampOutput ((filt - s.min) * s.scale_factor)

/-- Hysteresis gate (throttle.c lines 152-172): given the latch and the
clipped command, returns the new latch and the gated command. -/
def throttle_hyst (state : Bool) (cmd : ℚ) : Bool × ℚ :=
  if state then
    if cmd ≤ THROTTLE_HYST_LOW then (false, 0) else (true, cmd)
  else
    if THROTTLE_HYST_HIGH ≤ cmd then (true, cmd) else (false, 0)

/-- Upward-only rate limit (throttle.c lines 173-178). -/
def throttle_slew (prev cmd : ℚ) : ℚ :=
  if cmd - prev > THROTTLE_SLEW_RATE then prev + THROTTLE_SLEW_RATE else cmd

/-- End-of-startup computation (throttle.c lines 113-132): divide the
accumulated minimum by the number of averaging periods, range-check it
against the sane interval, estimate the maximum from the ADC reference
voltage minus the dropout, range-check it, and derive the scale factor. -/
def throttle_finish_startup (vref : ℚ) (s : ThrottleState) : ThrottleState :=
  let m0 := s.min / ((THROTTLE_START_TIME - THROTTLE_START_DEADTIME : ℕ) : ℚ)
  let m := if m0 > 1 ∨ m0 < 3/10 then THROTTLE_MIN_DEFAULT else m0
  let mx0 := vref - THROTTLE_DROPOUT
  let mx := if mx0 > 3 ∨ mx0 < 3/2 then THROTTLE_MAX_DEFAULT else mx0
  { s with startup_count := s.startup_count + 1, min := m, max := mx,
           scale_factor := 1 / (mx - m) }

/-- Post-startup part of a `throttle_process` call (throttle.c lines
133-180), applied to the channel state `s1` as it stands after the
end-of-startup computation: the re-calibration guard, the in-place
maximum stretch, and the clip / hysteresis / slew pipeline. -/
def throttle_normal (filt : ℚ) (s1 : ThrottleState) : ThrottleState × ℚ :=
  if filt < s1.min - THROTTLE_RANGE_LIMIT then
    -- input below recorded minimum: redo the startup routine
    ({ s1 with startup_count := 0 }, 0)
  else
    let s2 := if filt > s1.max + THROTTLE_RANGE_LIMIT then
                { s1 with max := filt, scale_factor := 1 / (filt - s1.min) }
              else s1
    let raw := throttle_raw_cmd s2 filt
    let hy := throttle_hyst s2.state raw
    let out := throttle_slew s2.prev_output hy.2
    ({ s2 with state := hy.1, prev_output := out }, out)

/-- One call of `throttle_process` (throttle.c lines 83-182).  `filt` is
the output `Throttle_filt.Y` of the biquad input filter (the filter
`dfsl_biquadf` is an external library collaborator; every claim speaks of
the filtered input), and `vref` is the value returned by the external
`adcGetVref()`.  Returns the updated channel state and the returned
command. -/
def throttle_process (filt vref : ℚ) (s : ThrottleState) : ThrottleState × ℚ :=
  if s.startup_count < THROTTLE_START_TIME then
    -- startup routine: increment the counter, accumulate after deadtime
    let c := s.startup_count + 1
    if THROTTLE_START_DEADTIME ≤ c then
      ({ s with startup_count := c, min := s.min + filt }, 0)
    else
      ({ s with startup_count := c }, 0)
  else
    throttle_normal filt
      (if s.startup_count = THROTTLE_START_TIME
       then throttle_finish_startup vref s else s)

/-- Repeated calls of `throttle_process` with a constant filtered input. -/
def throttle_runConst (filt vref : ℚ) (s : ThrottleState) : ℕ → ThrottleState
  | 0 => s
  | n + 1 => throttle_runConst filt vref (throttle_process filt vref s).1 n

/-! ## Helper lemmas about the throttle conditioner -/

lemma clampOutput_nonneg (x : ℚ) : THROTTLE_OUTPUT_MIN ≤ clampOutput x := by
  unfold clampOutput THROTTLE_OUTPUT_MIN THROTTLE_OUTPUT_MAX
  dsimp only
  split_ifs <;> norm_num <;> linarith

lemma clampOutput_le (x : ℚ) : clampOutput x ≤ THROTTLE_OUTPUT_MAX := by
  unfold clampOutput THROTTLE_OUTPUT_MIN THROTTLE_OUTPUT_MAX
  dsimp only
  split_ifs <;> norm_num <;> linarith

lemma throttle_hyst_snd (b : Bool) (cmd : ℚ) :
    (throttle_hyst b cmd).2 = 0 ∨ (throttle_hyst b cmd).2 = cmd := by
  unfold throttle_hyst
  cases b <;> split_ifs <;> simp

lemma throttle_slew_le (prev cmd : ℚ) :
    throttle_slew prev cmd ≤ prev + THROTTLE_SLEW_RATE := by
  unfold throttle_slew
  split_ifs with h
  · exact le_refl _
  · linarith

lemma throttle_slew_nonneg (prev cmd : ℚ) (hp : 0 ≤ prev) (hc : 0 ≤ cmd) :
    0 ≤ throttle_slew prev cmd := by
  unfold throttle_slew THROTTLE_SLEW_RATE
  split_ifs with h
  · linarith
  · exact hc

lemma throttle_slew_le_of_le (prev cmd M : ℚ) (hc : cmd ≤ M) :
    throttle_slew prev cmd ≤ max prev M := by
  unfold throttle_slew THROTTLE_SLEW_RATE at *
  split_ifs with h
  · have : prev + 1/2000 ≤ cmd := by linarith
    exact le_max_of_le_right (le_trans this hc)
  · exact le_max_of_le_right hc

/-- In the regular (post-startup, no re-calibration, no max-stretch) case,
one call of `throttle_process` is the clip, hysteresis and slew pipeline
applied in place. -/
lemma throttle_normal_step (s : ThrottleState) (filt vref : ℚ)
    (h1 : THROTTLE_START_TIME < s.startup_count)
    (h2 : ¬ filt < s.min - THROTTLE_RANGE_LIMIT)
    (h3 : ¬ filt > s.max + THROTTLE_RANGE_LIMIT) :
    throttle_process filt vref s =
      ({ s with state := (throttle_hyst s.state (throttle_raw_cmd s filt)).1,
                prev_output :=
                  throttle_slew s.prev_output
                    (throttle_hyst s.state (throttle_raw_cmd s filt)).2 },
       throttle_slew s.prev_output
         (throttle_hyst s.state (throttle_raw_cmd s filt)).2) := by
  have hnl : ¬ s.startup_count < THROTTLE_START_TIME := by omega
  have hne : ¬ s.startup_count = THROTTLE_START_TIME := by omega
  unfold throttle_process throttle_normal
  rw [if_neg hnl, if_neg hne, if_neg h2, if_neg h3]

/-- Closed form of the deadtime phase: while the counter stays strictly
below THROTTLE_START_DEADTIME, the calls only increment the counter. -/
lemma throttle_runConst_deadtime (filt vref : ℚ) :
    ∀ (k : ℕ) (s : ThrottleState),
      s.startup_count + k < THROTTLE_START_DEADTIME →
      throttle_runConst filt vref s k =
        { s with startup_count := s.startup_count + k } := by
  intro k
  induction k with
  | zero => intro s _; show s = _; rfl
  | succ n ih =>
    intro s h
    have hd : THROTTLE_START_DEADTIME ≤ THROTTLE_START_TIME := by
      unfold THROTTLE_START_DEADTIME THROTTLE_START_TIME; omega
    have h1 : s.startup_count < THROTTLE_START_TIME := by omega
    have h2 : ¬ THROTTLE_START_DEADTIME ≤ s.startup_count + 1 := by omega
    have hstep : (throttle_process filt vref s).1 =
        { s with startup_count := s.startup_count + 1 } := by
      unfold throttle_process
      rw [if_pos h1, if_neg h2]
    show throttle_runConst filt vref (throttle_process filt vref s).1 n = _
    rw [hstep, ih _ (by simpa using (by omega :
      s.startup_count + 1 + n < THROTTLE_START_DEADTIME))]
    have : s.startup_count + 1 + n = s.startup_count + (n + 1) := by omega
    rw [this]

/-- Closed form of the averaging phase: while the counter (after the
increment) has reached THROTTLE_START_DEADTIME and stays at most
THROTTLE_START_TIME, each call increments the counter and accumulates the
filtered input into `min`. -/
lemma throttle_runConst_averaging (filt vref : ℚ) :
    ∀ (k : ℕ) (s : ThrottleState),
      THROTTLE_START_DEADTIME ≤ s.startup_count + 1 →
      s.startup_count + k ≤ THROTTLE_START_TIME →
      throttle_runConst filt vref s k =
        { s with startup_count := s.startup_count + k,
                 min := s.min + (k : ℚ) * filt } := by
  intro k
  induction k with
  | zero =>
    intro s _ _
    show s = _
    have hm : s.min + ((0 : ℕ) : ℚ) * filt = s.min := by push_cast; ring
    have hc : s.startup_count + 0 = s.startup_count := by omega
    rw [hc, hm]
  | succ n ih =>
    intro s hlo hhi
    have h1 : s.startup_count < THROTTLE_START_TIME := by omega
    have h2 : THROTTLE_START_DEADTIME ≤ s.startup_count + 1 := hlo
    have hstep : (throttle_process filt vref s).1 =
        { s with startup_count := s.startup_count + 1, min := s.min + filt } := by
      unfold throttle_process
      rw [if_pos h1, if_pos h2]
    show throttle_runConst filt vref (throttle_process filt vref s).1 n = _
    rw [hstep, ih _ (by simpa using (by omega :
        THROTTLE_START_DEADTIME ≤ s.startup_count + 1 + 1))
      (by simpa using (by omega :
        s.startup_count + 1 + n ≤ THROTTLE_START_TIME))]
    have hc : s.startup_count + 1 + n = s.startup_count + (n + 1) := by omega
    have hm : s.min + filt + (n : ℚ) * filt = s.min + ((n + 1 : ℕ) : ℚ) * filt := by
      push_cast; ring
    rw [hc, hm]

/-- Splitting a constant-input run. -/
lemma throttle_runConst_add (filt vref : ℚ) (a b : ℕ) :
    ∀ s : ThrottleState,
      throttle_runConst filt vref s (a + b) =
        throttle_runConst filt vref (throttle_runConst filt vref s a) b := by
  induction a with
  | zero => intro s; rw [Nat.zero_add]; rfl
  | succ n ih =>
    intro s
    have : n + 1 + b = (n + b) + 1 := by omega
    rw [this]
    show throttle_runConst filt vref (throttle_process filt vref s).1 (n + b) = _
    exact ih (throttle_process filt vref s).1

/-- Bounds for the clip / hysteresis / slew tail of a normal-processing
call, for any intermediate state with a nonnegative stored previous
output. -/
lemma throttle_tail_bounds (s2 : ThrottleState) (filt : ℚ)
    (hp : 0 ≤ s2.prev_output) :
    0 ≤ throttle_slew s2.prev_output
          (throttle_hyst s2.state (throttle_raw_cmd s2 filt)).2 ∧
    throttle_slew s2.prev_output
        (throttle_hyst s2.state (throttle_raw_cmd s2 filt)).2
      ≤ THROTTLE_OUTPUT_MAX := by
  have h0 : THROTTLE_OUTPUT_MIN ≤ throttle_raw_cmd s2 filt :=
    clampOutput_nonneg _
  have h1 : throttle_raw_cmd s2 filt ≤ THROTTLE_OUTPUT_MAX :=
    clampOutput_le _
  rcases throttle_hyst_snd s2.state (throttle_raw_cmd s2 filt) with h | h <;>
    rw [h] <;>
    unfold throttle_slew THROTTLE_SLEW_RATE THROTTLE_OUTPUT_MIN
      THROTTLE_OUTPUT_MAX at * <;>
    split_ifs <;> constructor <;> linarith

/-- Bounds for a full `throttle_normal` call. -/
lemma throttle_normal_bounds (filt : ℚ) (s1 : ThrottleState)
    (hp : 0 ≤ s1.prev_output) :
    THROTTLE_OUTPUT_MIN ≤ (throttle_normal filt s1).2 ∧
    (throttle_normal filt s1).2 ≤ THROTTLE_OUTPUT_MAX ∧
    0 ≤ (throttle_normal filt s1).1.prev_output := by
  have hz : THROTTLE_OUTPUT_MIN ≤ (0 : ℚ) := by norm_num [THROTTLE_OUTPUT_MIN]
  have hzm : (0 : ℚ) ≤ THROTTLE_OUTPUT_MAX := by norm_num [THROTTLE_OUTPUT_MAX]
  unfold throttle_normal
  dsimp only
  split_ifs with hR hM
  · exact ⟨hz, hzm, hp⟩
  · have h := throttle_tail_bounds
      { s1 with max := filt, scale_factor := 1 / (filt - s1.min) } filt hp
    exact ⟨h.1, h.2, h.1⟩
  · have h := throttle_tail_bounds s1 filt hp
    exact ⟨h.1, h.2, h.1⟩

/-- C1: For every call to `throttle_process`, in any channel state
(startup, averaging completion, normal, recalibration re-entry) and for
any input voltage, the returned throttle command lies within
[THROTTLE_OUTPUT_MIN, THROTTLE_OUTPUT_MAX] = [0.00, 0.99].  The only
assumption on the state is that the stored previous output is
nonnegative; it holds at power-on (`prev_output = 0.0f`, throttle.c line
17) and the last conjunct shows every call preserves it. -/
theorem C1_throttle_output_in_range (s : ThrottleState) (filt vref : ℚ)
    (hprev : 0 ≤ s.prev_output) :
    THROTTLE_OUTPUT_MIN ≤ (throttle_process filt vref s).2 ∧
    (throttle_process filt vref s).2 ≤ THROTTLE_OUTPUT_MAX ∧
    0 ≤ (throttle_process filt vref s).1.prev_output := by
  have hz : THROTTLE_OUTPUT_MIN ≤ (0 : ℚ) := by norm_num [THROTTLE_OUTPUT_MIN]
  have hzm : (0 : ℚ) ≤ THROTTLE_OUTPUT_MAX := by norm_num [THROTTLE_OUTPUT_MAX]
  unfold throttle_process
  dsimp only
  split_ifs with hS hD hE
  · exact ⟨hz, hzm, hprev⟩
  · exact ⟨hz, hzm, hprev⟩
  · exact throttle_normal_bounds filt _ hprev
  · exact throttle_normal_bounds filt _ hprev

/-- Witness for C1 at a concrete state and input. -/
theorem C1_throttle_output_in_range_witness :
    (0 : ℚ) ≤ initThrottle.prev_output ∧
    (THROTTLE_OUTPUT_MIN ≤ (throttle_process (3/2) 3 initThrottle).2 ∧
     (throttle_process (3/2) 3 initThrottle).2 ≤ THROTTLE_OUTPUT_MAX ∧
     0 ≤ (throttle_process (3/2) 3 initThrottle).1.prev_output) :=
  ⟨by norm_num [initThrottle],
   C1_throttle_output_in_range initThrottle (3/2) 3 (by norm_num [initThrottle])⟩

/-- C5: In the Normal state: while the latch is off the gated command is
zero unless the clipped command reaches the upper threshold, which turns
the latch on and passes the command; while the latch is on the command
passes unless it falls to the lower threshold or below, which turns the
latch off and forces zero; consequently, for every sequence of clipped
commands lying strictly between the two thresholds the latch never
changes (no chatter).  The last conjunct ties the gate to the
`throttle_process` Normal-state call. -/
theorem C5_hysteresis_gate :
    (∀ cmd : ℚ, cmd < THROTTLE_HYST_HIGH →
      throttle_hyst false cmd = (false, 0)) ∧
    (∀ cmd : ℚ, THROTTLE_HYST_HIGH ≤ cmd →
      throttle_hyst false cmd = (true, cmd)) ∧
    (∀ cmd : ℚ, cmd ≤ THROTTLE_HYST_LOW →
      throttle_hyst true cmd = (false, 0)) ∧
    (∀ cmd : ℚ, THROTTLE_HYST_LOW < cmd →
      throttle_hyst true cmd = (true, cmd)) ∧
    (∀ (b : Bool) (l : List ℚ),
      (∀ c ∈ l, THROTTLE_HYST_LOW < c ∧ c < THROTTLE_HYST_HIGH) →
      List.foldl (fun st c => (throttle_hyst st c).1) b l = b) ∧
    (∀ (s : ThrottleState) (filt vref : ℚ),
      THROTTLE_START_TIME < s.startup_count →
      ¬ filt < s.min - THROTTLE_RANGE_LIMIT →
      ¬ filt > s.max + THROTTLE_RANGE_LIMIT →
      (throttle_process filt vref s).1.state =
        (throttle_hyst s.state (throttle_raw_cmd s filt)).1 ∧
      (throttle_process filt vref s).2 =
        throttle_slew s.prev_output
          (throttle_hyst s.state (throttle_raw_cmd s filt)).2) := by
  refine ⟨?_, ?_, ?_, ?_, ?_, ?_⟩
  · intro cmd h
    have hn : ¬ THROTTLE_HYST_HIGH ≤ cmd := not_le.mpr h
    simp [throttle_hyst, hn]
  · intro cmd h
    simp [throttle_hyst, h]
  · intro cmd h
    simp [throttle_hyst, h]
  · intro cmd h
    have hn : ¬ cmd ≤ THROTTLE_HYST_LOW := not_le.mpr h
    simp [throttle_hyst, hn]
  · intro b l
    induction l generalizing b with
    | nil => intro _; rfl
    | cons c t ih =>
      intro h
      have hc := h c (List.mem_cons_self c t)
      have hstep : (throttle_hyst b c).1 = b := by
        rcases hc with ⟨hlo, hhi⟩
        cases b
        · have hn : ¬ THROTTLE_HYST_HIGH ≤ c := not_le.mpr hhi
          simp [throttle_hyst, hn]
        · have hn : ¬ c ≤ THROTTLE_HYST_LOW := not_le.mpr hlo
          simp [throttle_hyst, hn]
      show List.foldl _ (throttle_hyst b c).1 t = b
      rw [hstep]
      exact ih b (fun x hx => h x (List.mem_cons_of_mem _ hx))
  · intro s filt vref h1 h2 h3
    rw [throttle_normal_step s filt vref h1 h2 h3]
    exact ⟨rfl, rfl⟩

/-- Witness for C5, applying every part of the theorem at concrete
inputs that satisfy its hypotheses. -/
theorem C5_hysteresis_gate_witness :
    throttle_hyst false (1/100) = (false, 0) ∧
    throttle_hyst false (1/10) = (true, 1/10) ∧
    throttle_hyst true (1/100) = (false, 0) ∧
    throttle_hyst true (1/10) = (true, 1/10) ∧
    List.foldl (fun st c => (throttle_hyst st c).1) true [3/100, 4/100] = true ∧
    (throttle_process (3/2) 3
        ⟨1001, 17/20, 11/5, 20/27, false, 0⟩).1.state =
      (throttle_hyst false
        (throttle_raw_cmd ⟨1001, 17/20, 11/5, 20/27, false, 0⟩ (3/2))).1 :=
  ⟨C5_hysteresis_gate.1 _ (by norm_num [THROTTLE_HYST_HIGH]),
   C5_hysteresis_gate.2.1 _ (by norm_num [THROTTLE_HYST_HIGH]),
   C5_hysteresis_gate.2.2.1 _ (by norm_num [THROTTLE_HYST_LOW]),
   C5_hysteresis_gate.2.2.2.1 _ (by norm_num [THROTTLE_HYST_LOW]),
   C5_hysteresis_gate.2.2.2.2.1 true [3/100, 4/100] (by
     intro c hc
     simp only [List.mem_cons, List.not_mem_nil, or_false] at hc
     rcases hc with rfl | rfl <;>
       constructor <;> norm_num [THROTTLE_HYST_LOW, THROTTLE_HYST_HIGH]),
   (C5_hysteresis_gate.2.2.2.2.2 ⟨1001, 17/20, 11/5, 20/27, false, 0⟩
     (3/2) 3 (by decide) (by norm_num [THROTTLE_RANGE_LIMIT])
     (by norm_num [THROTTLE_RANGE_LIMIT])).1⟩

/-- C6: For consecutive Normal-state calls, the returned command never
exceeds the stored previous returned command by more than
THROTTLE_SLEW_RATE, decreases are unlimited (a command at or below the
previous output passes unchanged), and the limited value becomes the new
stored previous output. -/
theorem C6_slew_rate_limit :
    (∀ prev cmd : ℚ, throttle_slew prev cmd ≤ prev + THROTTLE_SLEW_RATE) ∧
    (∀ prev cmd : ℚ, cmd ≤ prev → throttle_slew prev cmd = cmd) ∧
    (∀ (s : ThrottleState) (filt vref : ℚ),
      THROTTLE_START_TIME < s.startup_count →
      ¬ filt < s.min - THROTTLE_RANGE_LIMIT →
      (throttle_process filt vref s).2 ≤ s.prev_output + THROTTLE_SLEW_RATE ∧
      (throttle_process filt vref s).1.prev_output =
        (throttle_process filt vref s).2) := by
  refine ⟨fun p c => throttle_slew_le p c, ?_, ?_⟩
  · intro prev cmd h
    unfold throttle_slew
    rw [if_neg (by unfold THROTTLE_SLEW_RATE; intro hc; linarith)]
  · intro s filt vref h1 h2
    have hnl : ¬ s.startup_count < THROTTLE_START_TIME := by omega
    have hne : ¬ s.startup_count = THROTTLE_START_TIME := by omega
    unfold throttle_process throttle_normal
    rw [if_neg hnl, if_neg hne, if_neg h2]
    dsimp only
    split_ifs with hM
    · exact ⟨throttle_slew_le _ _, rfl⟩
    · exact ⟨throttle_slew_le _ _, rfl⟩

/-- Witness for C6 at concrete inputs. -/
theorem C6_slew_rate_limit_witness :
    throttle_slew 0 1 ≤ 0 + THROTTLE_SLEW_RATE ∧
    throttle_slew 1 (1/2) = 1/2 ∧
    ((throttle_process (3/2) 3 ⟨1001, 17/20, 11/5, 20/27, false, 0⟩).2 ≤
        (0 : ℚ) + THROTTLE_SLEW_RATE ∧
      (throttle_process (3/2) 3
          ⟨1001, 17/20, 11/5, 20/27, false, 0⟩).1.prev_output =
        (throttle_process (3/2) 3 ⟨1001, 17/20, 11/5, 20/27, false, 0⟩).2) :=
  ⟨C6_slew_rate_limit.1 0 1,
   C6_slew_rate_limit.2.1 1 (1/2) (by norm_num),
   C6_slew_rate_limit.2.2 ⟨1001, 17/20, 11/5, 20/27, false, 0⟩
     (3/2) 3 (by decide) (by norm_num [THROTTLE_RANGE_LIMIT])⟩

/-- C10: While the channel is still in startup (startup_count below
THROTTLE_START_TIME, covering both the Deadtime and the Averaging
phases) the returned command is exactly 0, and every call that leaves
the channel re-entered into Deadtime (startup counter reset to zero)
also returns exactly 0, so no torque is commanded while calibration is
in progress. -/
theorem C10_startup_zero_output (s : ThrottleState) (filt vref : ℚ) :
    (s.startup_count < THROTTLE_START_TIME →
      (throttle_process filt vref s).2 = 0) ∧
    ((throttle_process filt vref s).1.startup_count = 0 →
      (throttle_process filt vref s).2 = 0) := by
  by_cases hS : s.startup_count < THROTTLE_START_TIME
  · constructor
    · intro _
      unfold throttle_process
      rw [if_pos hS]
      dsimp only
      split_ifs <;> rfl
    · intro _
      unfold throttle_process
      rw [if_pos hS]
      dsimp only
      split_ifs <;> rfl
  · refine ⟨fun h => absurd h hS, ?_⟩
    intro h
    unfold throttle_process throttle_normal at h ⊢
    rw [if_neg hS] at h ⊢
    dsimp only at h ⊢
    split_ifs at h ⊢ with hE hR hM
    · rfl
    · exfalso
      simp [throttle_finish_startup] at h
    · exfalso
      simp [throttle_finish_startup] at h
    · rfl
    · exfalso
      unfold THROTTLE_START_TIME at hS
      simp at h
      omega
    · exfalso
      unfold THROTTLE_START_TIME at hS
      simp at h
      omega

/-- Witness for C10: one call still in Deadtime, and one call that
triggers re-entry into Deadtime from a calibrated state. -/
theorem C10_startup_zero_output_witness :
    initThrottle.startup_count < THROTTLE_START_TIME ∧
    (throttle_process 1 3 initThrottle).2 = 0 ∧
    (throttle_process (1/5) 3
        ⟨1001, 17/20, 11/5, 20/27, false, 0⟩).1.startup_count = 0 ∧
    (throttle_process (1/5) 3 ⟨1001, 17/20, 11/5, 20/27, false, 0⟩).2 = 0 :=
  ⟨by decide,
   (C10_startup_zero_output initThrottle 1 3).1 (by decide),
   by norm_num [throttle_process, throttle_normal, throttle_finish_startup,
     THROTTLE_START_TIME, THROTTLE_RANGE_LIMIT],
   (C10_startup_zero_output ⟨1001, 17/20, 11/5, 20/27, false, 0⟩ (1/5) 3).2
     (by norm_num [throttle_process, throttle_normal, throttle_finish_startup,
       THROTTLE_START_TIME, THROTTLE_RANGE_LIMIT])⟩

/-! ## The startup / averaging scenario (claims C3 and C7)

The source accumulates samples on every call whose post-increment counter
satisfies `THROTTLE_START_DEADTIME <= count <= THROTTLE_START_TIME`: that
is calls 500 .. 1000, i.e. 501 samples after 499 discarded ones, while the
completion call divides the accumulator by
`THROTTLE_START_TIME - THROTTLE_START_DEADTIME = 500`. -/

/-- Closed form of the whole startup run from a state with counter 0: 499
deadtime calls followed by 501 accumulating calls. -/
lemma throttle_runConst_startup (v vref : ℚ) (s0 : ThrottleState)
    (h0 : s0.startup_count = 0) :
    throttle_runConst v vref s0 THROTTLE_START_TIME =
      { s0 with startup_count := THROTTLE_START_TIME,
                min := s0.min + 501 * v } := by
  have e : THROTTLE_START_TIME = 499 + 501 := by
    unfold THROTTLE_START_TIME; norm_num
  rw [e, throttle_runConst_add]
  have h1 : throttle_runConst v vref s0 499 =
      { s0 with startup_count := s0.startup_count + 499 } :=
    throttle_runConst_deadtime v vref 499 s0
      (by unfold THROTTLE_START_DEADTIME; omega)
  rw [h1]
  have h2 := throttle_runConst_averaging v vref 501
      { s0 with startup_count := s0.startup_count + 499 }
      (by unfold THROTTLE_START_DEADTIME; dsimp only; omega)
      (by unfold THROTTLE_START_TIME; dsimp only; omega)
  rw [h2]
  have hc : s0.startup_count + 499 + 501 = 499 + 501 := by omega
  have hm : s0.min + ((501:ℕ) : ℚ) * v = s0.min + 501 * v := by push_cast; ring
  dsimp only
  rw [hc, hm]

/-- The concrete 1000-call run of the C3 scenario: constant filtered input
1.0 V from the power-on state. -/
lemma throttle_runConst_init_1000 :
    throttle_runConst 1 (73/25) initThrottle 1000 =
      (⟨1000, 501, 0, 0, false, 0⟩ : ThrottleState) := by
  have h := throttle_runConst_startup 1 (73/25) initThrottle (by decide)
  unfold THROTTLE_START_TIME at h
  rw [h]
  norm_num [initThrottle]

/-- C3 (counterexample): in the claimed scenario (constant 1.0 V through
startup, supply reference 2.92 V so that max = 2.92 - 0.72 = 2.2 V), the
completed calibration does NOT give min close to 1.0 and a subsequent
1.5 V input does NOT give a pre-hysteresis command close to
(1.5-1.0)*0.833 = 0.4167: the accumulator collects 501 samples, the
division by 500 gives 1.002 > 1.0, the sane-range check rejects it, min
becomes the 0.85 default (off the claimed value by 0.15 > 0.1), and the
command is 13/27, which is 0.4167 + more than 0.05. -/
theorem C3_startup_scenario_counterexample :
    throttle_finish_startup (73/25)
        (throttle_runConst 1 (73/25) initThrottle 1000) =
      (⟨1001, 17/20, 11/5, 20/27, false, 0⟩ : ThrottleState) ∧
    (throttle_finish_startup (73/25)
        (throttle_runConst 1 (73/25) initThrottle 1000)).min < 1 - 1/10 ∧
    throttle_raw_cmd (throttle_finish_startup (73/25)
        (throttle_runConst 1 (73/25) initThrottle 1000)) (3/2) = 13/27 ∧
    (5:ℚ)/12 + 1/20 <
      throttle_raw_cmd (throttle_finish_startup (73/25)
        (throttle_runConst 1 (73/25) initThrottle 1000)) (3/2) := by
  rw [throttle_runConst_init_1000]
  refine ⟨?_, ?_, ?_, ?_⟩ <;>
    norm_num [throttle_finish_startup, throttle_raw_cmd, clampOutput,
      THROTTLE_START_TIME, THROTTLE_START_DEADTIME, THROTTLE_MIN_DEFAULT,
      THROTTLE_MAX_DEFAULT, THROTTLE_DROPOUT, THROTTLE_OUTPUT_MIN,
      THROTTLE_OUTPUT_MAX]

/-- C3 (amended): with a constant filtered input of 1.0 V from power-on
and a supply reference of 2.92 V, the conditioner discards exactly the
first 499 samples, accumulates the next 501 samples (accumulator 501.0
after call 1000), and the completion call divides the accumulator by 500;
the quotient 501/500 = 1.002 V falls outside the sane range (0.3, 1.0] so
min is replaced by the 0.85 V default, max becomes 2.92 - 0.72 = 2.2 V,
the scale factor 1/(2.2-0.85) = 20/27, and a subsequent 1.5 V input
yields the pre-hysteresis command (1.5-0.85)*20/27 = 13/27 = 0.4815,
which the hysteresis gate passes (turning the latch on) and the slew
limiter then cuts to 0.0005. -/
theorem C3_startup_scenario_amended :
    throttle_runConst 1 (73/25) initThrottle 499 =
      { initThrottle with startup_count := 499 } ∧
    throttle_runConst 1 (73/25) initThrottle 1000 =
      (⟨1000, 501, 0, 0, false, 0⟩ : ThrottleState) ∧
    (501:ℚ)/500 > 1 ∧
    throttle_process (3/2) (73/25)
        (throttle_runConst 1 (73/25) initThrottle 1000) =
      (⟨1001, 17/20, 11/5, 20/27, true, 1/2000⟩, 1/2000) ∧
    throttle_raw_cmd (⟨1001, 17/20, 11/5, 20/27, false, 0⟩ : ThrottleState)
        (3/2) = 13/27 := by
  refine ⟨throttle_runConst_deadtime 1 (73/25) 499 initThrottle (by decide),
    throttle_runConst_init_1000, by norm_num, ?_, ?_⟩
  · rw [throttle_runConst_init_1000]
    norm_num [throttle_process, throttle_normal, throttle_finish_startup,
      throttle_raw_cmd, throttle_hyst, throttle_slew, clampOutput,
      THROTTLE_START_TIME, THROTTLE_START_DEADTIME, THROTTLE_MIN_DEFAULT,
      THROTTLE_MAX_DEFAULT, THROTTLE_DROPOUT, THROTTLE_OUTPUT_MIN,
      THROTTLE_OUTPUT_MAX, THROTTLE_RANGE_LIMIT, THROTTLE_HYST_LOW,
      THROTTLE_HYST_HIGH, THROTTLE_SLEW_RATE]
  · norm_num [throttle_raw_cmd, clampOutput, THROTTLE_OUTPUT_MIN,
      THROTTLE_OUTPUT_MAX]

/-- C7 (counterexample): a call whose filtered input lies below the
learned min by more than the guard margin does re-enter Deadtime with the
counter reset and returns 0, but the stale `min` accumulator is NOT
cleared, so the next completed Averaging phase (1000 calls of constant
0.9 V) does NOT learn the average of the newly gathered samples: it
learns (0.85 + 501*0.9)/500 = 0.9035 instead of 0.9. -/
theorem C7_recalibration_counterexample :
    throttle_process (1/5) (73/25)
        (⟨1001, 17/20, 11/5, 20/27, false, 0⟩ : ThrottleState) =
      (⟨0, 17/20, 11/5, 20/27, false, 0⟩, 0) ∧
    (throttle_finish_startup (73/25)
        (throttle_runConst (9/10) (73/25)
          (⟨0, 17/20, 11/5, 20/27, false, 0⟩ : ThrottleState)
          THROTTLE_START_TIME)).min = 1807/2000 ∧
    (1807:ℚ)/2000 ≠ 9/10 := by
  refine ⟨?_, ?_, by norm_num⟩
  · norm_num [throttle_process, throttle_normal, THROTTLE_START_TIME,
      THROTTLE_RANGE_LIMIT]
  · rw [throttle_runConst_startup (9/10) (73/25) _ rfl]
    norm_num [throttle_finish_startup, THROTTLE_START_TIME,
      THROTTLE_START_DEADTIME, THROTTLE_MIN_DEFAULT]

/-- C7 (amended): a filtered input below the learned min by more than the
guard margin re-enters Deadtime (counter reset to 0, call returns 0), but
the `min` accumulator keeps its stale learned value; the following
startup run of 1000 calls with constant input v adds 501*v to the stale
accumulator, and the completion divides the accumulator by 500 (subject
to the sane-range check), so the re-learned minimum is
(stale min + 501*v)/500, not the average of the newly gathered
samples. -/
theorem C7_recalibration_amended :
    (∀ (s : ThrottleState) (filt vref : ℚ),
      THROTTLE_START_TIME < s.startup_count →
      filt < s.min - THROTTLE_RANGE_LIMIT →
      throttle_process filt vref s = ({ s with startup_count := 0 }, 0)) ∧
    (∀ (s0 : ThrottleState) (v vref : ℚ), s0.startup_count = 0 →
      throttle_runConst v vref s0 THROTTLE_START_TIME =
        { s0 with startup_count := THROTTLE_START_TIME,
                  min := s0.min + 501 * v }) ∧
    (∀ (s1 : ThrottleState) (vref : ℚ),
      (throttle_finish_startup vref s1).min =
        if s1.min / 500 > 1 ∨ s1.min / 500 < 3/10
        then THROTTLE_MIN_DEFAULT else s1.min / 500) := by
  refine ⟨?_, fun s0 v vref h0 => throttle_runConst_startup v vref s0 h0, ?_⟩
  · intro s filt vref h1 h2
    have hnl : ¬ s.startup_count < THROTTLE_START_TIME := by omega
    have hne : ¬ s.startup_count = THROTTLE_START_TIME := by omega
    unfold throttle_process throttle_normal
    rw [if_neg hnl, if_neg hne, if_pos h2]
  · intro s1 vref
    unfold throttle_finish_startup
    norm_num [THROTTLE_START_TIME, THROTTLE_START_DEADTIME]

/-- Witness for C7 (amended), applying each part at concrete inputs. -/
theorem C7_recalibration_amended_witness :
    THROTTLE_START_TIME < 1001 ∧
    (1:ℚ)/5 < 17/20 - THROTTLE_RANGE_LIMIT ∧
    throttle_process (1/5) (73/25)
        (⟨1001, 17/20, 11/5, 20/27, false, 0⟩ : ThrottleState) =
      (⟨0, 17/20, 11/5, 20/27, false, 0⟩, 0) ∧
    throttle_runConst (9/10) (73/25)
        (⟨0, 17/20, 11/5, 20/27, false, 0⟩ : ThrottleState)
        THROTTLE_START_TIME =
      (⟨THROTTLE_START_TIME, 17/20 + 501 * (9/10), 11/5, 20/27,
        false, 0⟩ : ThrottleState) ∧
    (throttle_finish_startup (73/25)
        (⟨1000, 9035/20, 11/5, 20/27, false, 0⟩ : ThrottleState)).min =
      (if (9035:ℚ)/20 / 500 > 1 ∨ (9035:ℚ)/20 / 500 < 3/10
       then THROTTLE_MIN_DEFAULT else (9035:ℚ)/20 / 500) :=
  ⟨by decide, by norm_num [THROTTLE_RANGE_LIMIT],
   C7_recalibration_amended.1 ⟨1001, 17/20, 11/5, 20/27, false, 0⟩
     (1/5) (73/25) (by decide) (by norm_num [THROTTLE_RANGE_LIMIT]),
   C7_recalibration_amended.2.1 ⟨0, 17/20, 11/5, 20/27, false, 0⟩
     (9/10) (73/25) rfl,
   C7_recalibration_amended.2.2 ⟨1000, 9035/20, 11/5, 20/27, false, 0⟩
     (73/25)⟩

/-- C8 (counterexample): a filtered input above the learned max by more
than the guard margin updates max and the scale factor in place, but the
call then continues with regular processing, so other channel state DOES
change: at input 3.0 V from a calibrated state with the latch off, the
stretched command is clipped to 0.99, which crosses the upper hysteresis
threshold and turns the latch on, and the slew limiter stores a new
previous output 0.0005 != 0. -/
theorem C8_max_update_counterexample :
    (throttle_process 3 (73/25)
        (⟨1001, 17/20, 11/5, 20/27, false, 0⟩ : ThrottleState)).1.max = 3 ∧
    (throttle_process 3 (73/25)
        (⟨1001, 17/20, 11/5, 20/27, false, 0⟩ : ThrottleState)).1.state = true ∧
    (⟨1001, 17/20, 11/5, 20/27, false, 0⟩ : ThrottleState).state = false ∧
    (throttle_process 3 (73/25)
        (⟨1001, 17/20, 11/5, 20/27, false, 0⟩ : ThrottleState)).1.prev_output
      = 1/2000 ∧
    (⟨1001, 17/20, 11/5, 20/27, false, 0⟩ : ThrottleState).prev_output = 0 := by
  refine ⟨?_, ?_, rfl, ?_, rfl⟩ <;>
    norm_num [throttle_process, throttle_normal, throttle_raw_cmd,
      throttle_hyst, throttle_slew, clampOutput, THROTTLE_START_TIME,
      THROTTLE_RANGE_LIMIT, THROTTLE_OUTPUT_MIN, THROTTLE_OUTPUT_MAX,
      THROTTLE_HYST_LOW, THROTTLE_HYST_HIGH, THROTTLE_SLEW_RATE]

/-- C8 (amended): when the filtered input exceeds the learned max by more
than the guard margin (in a post-completion state with min <= max), the
call updates max to the input and the scale factor to 1/(max - min), the
startup counter and the learned min are unchanged and no restart of the
calibration state machine occurs; however the call then performs the
regular clip / hysteresis / slew processing on the stretched state, so
the hysteresis latch and the stored previous output evolve as in any
normal call. -/
theorem C8_max_update_amended (s : ThrottleState) (filt vref : ℚ)
    (h1 : THROTTLE_START_TIME < s.startup_count)
    (h2 : s.min ≤ s.max)
    (h3 : s.max + THROTTLE_RANGE_LIMIT < filt) :
    (throttle_process filt vref s).1.max = filt ∧
    (throttle_process filt vref s).1.scale_factor = 1 / (filt - s.min) ∧
    (throttle_process filt vref s).1.startup_count = s.startup_count ∧
    (throttle_process filt vref s).1.min = s.min ∧
    throttle_process filt vref s =
      (let s2 : ThrottleState :=
        { s with max := filt, scale_factor := 1 / (filt - s.min) }
       let hy := throttle_hyst s.state (throttle_raw_cmd s2 filt)
       let out := throttle_slew s.prev_output hy.2
       ({ s2 with state := hy.1, prev_output := out }, out)) := by
  have hnl : ¬ s.startup_count < THROTTLE_START_TIME := by omega
  have hne : ¬ s.startup_count = THROTTLE_START_TIME := by omega
  have hL : (0:ℚ) < THROTTLE_RANGE_LIMIT := by norm_num [THROTTLE_RANGE_LIMIT]
  have hrec : ¬ filt < s.min - THROTTLE_RANGE_LIMIT := by
    intro hcon
    have : s.min ≤ s.max + THROTTLE_RANGE_LIMIT := by linarith
    linarith
  have hstr : filt > s.max + THROTTLE_RANGE_LIMIT := h3
  have heq : throttle_process filt vref s =
      (let s2 : ThrottleState :=
        { s with max := filt, scale_factor := 1 / (filt - s.min) }
       let hy := throttle_hyst s.state (throttle_raw_cmd s2 filt)
       let out := throttle_slew s.prev_output hy.2
       ({ s2 with state := hy.1, prev_output := out }, out)) := by
    unfold throttle_process throttle_normal
    rw [if_neg hnl, if_neg hne, if_neg hrec, if_pos hstr]
  rw [heq]
  exact ⟨rfl, rfl, rfl, rfl, rfl⟩

/-- Witness for C8 (amended) at a concrete calibrated state and input. -/
theorem C8_max_update_amended_witness :
    THROTTLE_START_TIME < 1001 ∧
    (17:ℚ)/20 ≤ 11/5 ∧
    (11:ℚ)/5 + THROTTLE_RANGE_LIMIT < 3 ∧
    (throttle_process 3 (73/25)
        (⟨1001, 17/20, 11/5, 20/27, false, 0⟩ : ThrottleState)).1.max = 3 ∧
    (throttle_process 3 (73/25)
        (⟨1001, 17/20, 11/5, 20/27, false, 0⟩ : ThrottleState)).1.min = 17/20 :=
  ⟨by decide, by norm_num, by norm_num [THROTTLE_RANGE_LIMIT],
   (C8_max_update_amended ⟨1001, 17/20, 11/5, 20/27, false, 0⟩ 3 (73/25)
     (by decide) (by norm_num) (by norm_num [THROTTLE_RANGE_LIMIT])).1,
   (C8_max_update_amended ⟨1001, 17/20, 11/5, 20/27, false, 0⟩ 3 (73/25)
     (by decide) (by norm_num) (by norm_num [THROTTLE_RANGE_LIMIT])).2.2.2.1⟩

/-! ## Pedal-assist (PAS) conditioner (throttle.c lines 184-216, claim C4) -/

/-- State of the pulse-rate channel: the fields of `Throttle_PAS_Type`
used by `throttle_pas_process`.  `last_reading` and the input level are
the masked pin value `IDR & (1 << pin)` read from the external GPIO
port. -/
structure ThrottlePAS where
  last_reading : ℕ
  time_counter : ℕ
  filtered_speed : ℚ
  scale_factor : ℚ
  deriving DecidableEq

/-- One call of `throttle_pas_process` (throttle.c lines 184-216) for a
valid channel number.  `W` is the filter weight PAS_FILTER (a
configuration constant of throttle.h, not under src/; the spec calls it
W) and `reading` the sampled digital level.  The C function returns
void: the second component models the local variable `thr_output`, which
the source computes from the updated state and then discards (it is
neither returned nor stored). -/
def throttle_pas_process (W : ℚ) (reading : ℕ) (s : ThrottlePAS) :
    ThrottlePAS × ℚ :=
  let s2 :=
    if reading ≠ s.last_reading then
      if reading = 1 then
        -- rising edge detected
        { s with last_reading := reading,
                 filtered_speed := ((s.time_counter : ℚ) / 1000) * W +
                   s.filtered_speed * (1 - W),
                 time_counter := 0 }
      else
        { s with last_reading := reading }
    else
      { s with time_counter := s.time_counter + 1 }
  (s2, clampOutput (s2.filtered_speed * s2.scale_factor))

/-- C4 (counterexample): on a falling level change (stored level 1,
sampled level 0, elapsed counter 7) the claim predicts a filtered-speed
update and a counter reset; the code updates only the stored level: the
filtered speed and the elapsed counter are unchanged (in particular the
counter is 7, neither reset to 0 nor incremented). -/
theorem C4_pas_counterexample :
    ¬ ((throttle_pas_process (1/10) 0
          (⟨1, 7, 1, 1⟩ : ThrottlePAS)).1.time_counter = 0 ∧
       (throttle_pas_process (1/10) 0
          (⟨1, 7, 1, 1⟩ : ThrottlePAS)).1.filtered_speed =
         (1 / 7) * (1/10) + 1 * (1 - 1/10)) := by
  intro h
  have := h.1
  norm_num [throttle_pas_process] at this

/-- C4 (amended): on a rising edge (level change with new level 1) the
filtered speed is updated to (elapsed_time/1000) * W + filtered * (1 - W)
(the elapsed count scaled to seconds, not its reciprocal) and the
elapsed-time counter is reset; on any other level change only the stored
level is updated; with no level change the elapsed-time counter is
incremented; and the value filtered * scale_factor clamped to
[0.00, 0.99] is computed into a local that the function discards (the
function returns void and stores no output). -/
theorem C4_pas_amended (W : ℚ) (reading : ℕ) (s : ThrottlePAS) :
    (reading ≠ s.last_reading → reading = 1 →
      (throttle_pas_process W reading s).1 =
        { s with last_reading := reading,
                 filtered_speed := ((s.time_counter : ℚ) / 1000) * W +
                   s.filtered_speed * (1 - W),
                 time_counter := 0 }) ∧
    (reading ≠ s.last_reading → reading ≠ 1 →
      (throttle_pas_process W reading s).1 =
        { s with last_reading := reading }) ∧
    (reading = s.last_reading →
      (throttle_pas_process W reading s).1 =
        { s with time_counter := s.time_counter + 1 }) ∧
    (throttle_pas_process W reading s).2 =
      clampOutput ((throttle_pas_process W reading s).1.filtered_speed *
        (throttle_pas_process W reading s).1.scale_factor) := by
  refine ⟨?_, ?_, ?_, ?_⟩
  · intro hne h1
    unfold throttle_pas_process
    rw [if_pos hne, if_pos h1]
  · intro hne h1
    unfold throttle_pas_process
    rw [if_pos hne, if_neg h1]
  · intro heq
    unfold throttle_pas_process
    rw [if_neg (fun hcon => hcon heq)]
  · rfl

/-- Witness for C4 (amended): a rising edge, a falling change, and a
steady sample. -/
theorem C4_pas_amended_witness :
    (throttle_pas_process (1/10) 1 (⟨0, 500, 0, 1⟩ : ThrottlePAS)).1 =
      (⟨1, 0, ((500:ℕ) : ℚ) / 1000 * (1/10) + 0 * (1 - 1/10), 1⟩ : ThrottlePAS) ∧
    (throttle_pas_process (1/10) 0 (⟨1, 7, 1, 1⟩ : ThrottlePAS)).1 =
      (⟨0, 7, 1, 1⟩ : ThrottlePAS) ∧
    (throttle_pas_process (1/10) 1 (⟨1, 7, 1, 1⟩ : ThrottlePAS)).1 =
      (⟨1, 8, 1, 1⟩ : ThrottlePAS) :=
  ⟨(C4_pas_amended (1/10) 1 ⟨0, 500, 0, 1⟩).1 (by decide) rfl,
   (C4_pas_amended (1/10) 0 ⟨1, 7, 1, 1⟩).2.1 (by decide) (by decide),
   (C4_pas_amended (1/10) 1 ⟨1, 7, 1, 1⟩).2.2.1 rfl⟩

/-! ## Fast and slow execution contexts (src/ebike-g4/src/main.c)

`MAIN_MotorISR` and `MAIN_AppTimerISR` are in src.  The collaborator
routines they call (`HALL_IncAngle`, `FOC_RampGen`, `FOC_Ipark`,
`FOC_SVM`, the CORDIC trigonometric unit, the g4 throttle module, GPIO /
PWM / watchdog registers) are repository code not under src/, so they
are modelled from the spec; hardware reads become explicit inputs and
hardware writes become emitted effect events or returned values. -/

/-- Fractional-part wrap: normalized angles live in `[0,1)`. -/
def fractQ (x : ℚ) : ℚ := x - ⌊x⌋

/-- Modelled from the spec (section 4.1 on_tick): `HALL_IncAngle`
advances the rotor estimator's accumulated angle by
`estimated_speed * dt`, wrapping modulo 1.0. -/
def hall_on_tick (angle speed dt : ℚ) : ℚ := fractQ (angle + speed * dt)

/-- Modelled from the spec: `FOC_RampGen` advances the debug ramp angle
by the configured increment, wrapping modulo 1.0 (foc_lib, not under
src/). -/
def FOC_RampGen (angle inc : ℚ) : ℚ := fractQ (angle + inc)

/-- Modelled from the spec (section 4.4 step 3): `FOC_Ipark`, the
inverse rotating-frame transform from direct/quadrature commands to
stator alpha/beta components (foc_lib, not under src/). -/
def FOC_Ipark (D Q sn cs : ℚ) : ℚ × ℚ := (D * cs - Q * sn, D * sn + Q * cs)

/-- Rational stand-in for the square root of 3 used by the three-phase
projections; the trigonometric/scaling constants are external
primitives. -/
def SQRT3 : ℚ := 1732051/1000000

/-- Modelled from the spec (section 4.4 step 1): the stator two-phase
(Clarke) transform of two measured phase currents (foc_lib, not under
src/). -/
def FOC_Clarke (a b : ℚ) : ℚ × ℚ := (a, (a + 2 * b) / SQRT3)

/-- Modelled from the spec (section 4.4 step 1): the rotating-frame
(Park) transform of stator alpha/beta quantities at the rotor angle
(foc_lib, not under src/). -/
def FOC_Park (al be sn cs : ℚ) : ℚ × ℚ :=
  (al * cs + be * sn, -al * sn + be * cs)

/-- Clamping of a duty fraction to [0,1] (spec section 4.5). -/
def clamp01 (x : ℚ) : ℚ := if x < 0 then 0 else if x > 1 then 1 else x

/-- Modelled from the spec (section 4.5): `FOC_SVM` maps the two-axis
modulation vector to three duty fractions: three sinusoidal phase
projections, min-max common-mode centering about the duty midpoint, and
clamping to [0,1] (foc_lib, not under src/). -/
def FOC_SVM (alpha beta : ℚ) : ℚ × ℚ × ℚ :=
  let pa := alpha
  let pb := (-alpha + SQRT3 * beta) / 2
  let pc := (-alpha - SQRT3 * beta) / 2
  let mid := (max pa (max pb pc) + min pa (min pb pc)) / 2
  (clamp01 (1/2 + (pa - mid)), clamp01 (1/2 + (pb - mid)),
   clamp01 (1/2 + (pc - mid)))

/-- One discrete PID regulator state (spec section 4.4 step 2; the
PID_Type of foc_lib is not under src/). -/
structure PID_Type where
  Kp : ℚ
  Ki : ℚ
  Kd : ℚ
  Kc : ℚ
  integ : ℚ
  prev_err : ℚ
  outmin : ℚ
  outmax : ℚ
  deriving DecidableEq

/-- Clamp to the PID output bounds. -/
def clampR (lo hi x : ℚ) : ℚ := if x < lo then lo else if x > hi then hi else x

/-- Modelled from the spec (section 4.4 step 2): one PID step with
back-calculation anti-windup (foc_lib, not under src/). -/
def foc_pid_step (p : PID_Type) (err : ℚ) : PID_Type × ℚ :=
  let integ := p.integ + p.Ki * err
  let unclamped := p.Kp * err + integ + p.Kd * (err - p.prev_err)
  let clamped := clampR p.outmin p.outmax unclamped
  let integ2 := integ - p.Kc * (unclamped - clamped)
  ({ p with integ := integ2, prev_err := err }, clamped)

/-- The DFLT_FOC_* gains and output bounds of project_parameters.h lines
58-63, with zeroed regulator state. -/
def defaultPID : PID_Type :=
  { Kp := 1/10, Ki := 1/1000, Kd := 0, Kc := 1/20, integ := 0,
    prev_err := 0, outmin := -19/20, outmax := 19/20 }

/-- The pieces of main.c state read and written by `MAIN_MotorISR`:
`Mvar.Timestamp` (uint32), the debug ramp angle, the rotor estimator's
accumulated angle (owned by the external HALL module), the observation
snapshot `Mobv`, the FOC scratch vector `Mfoc.Clarke_*`, and the duty
registers `Mpwm`. -/
structure MotorState where
  timestamp : ℕ
  rampAngle : ℚ
  hallAngle : ℚ
  obvAngle : ℚ
  obvSpeed : ℚ
  obvHallState : ℕ
  iA : ℚ
  iB : ℚ
  iC : ℚ
  clarkeAlpha : ℚ
  clarkeBeta : ℚ
  tA : ℚ
  tB : ℚ
  tC : ℚ
  deriving DecidableEq

/-- External values sampled by one `MAIN_MotorISR` call: the HALL
module's speed estimate and sensor state, the three injected-ADC phase
currents, and the torque reference `Mctrl.ThrottleCommand` published by
the slow context. -/
structure MotorInputs where
  hallSpeed : ℚ
  hallState : ℕ
  adc_iA : ℚ
  adc_iB : ℚ
  adc_iC : ℚ
  throttleCommand : ℚ
  deriving DecidableEq

/-- One call of `MAIN_MotorISR` (main.c lines 176-212).  `trig` is the
CORDIC sine/cosine primitive (external hardware), `dt` the fast-context
period used by the rotor estimator's tick, `inc` the debug ramp
increment `DBG_RampIncrement`.  Returns the updated state and the
`(tA, tB, tC)` duty triple written to the PWM outputs via
`PWM_SetDutyF`; the DAC debug output and the live-telemetry packet
assembly are external sinks. -/
def MAIN_MotorISR (trig : ℚ → ℚ × ℚ) (dt inc : ℚ) (i : MotorInputs)
    (s : MotorState) : MotorState × (ℚ × ℚ × ℚ) :=
  let ts := (s.timestamp + 1) % 2 ^ 32
  let ramp := FOC_RampGen s.rampAngle inc
  let hallAngle := hall_on_tick s.hallAngle i.hallSpeed dt
  let sc := trig (ramp * 2 - 1)
  let ab := FOC_Ipark (3/4) 0 sc.1 sc.2
  let duties := FOC_SVM ab.1 ab.2
  ({ timestamp := ts, rampAngle := ramp, hallAngle := hallAngle,
     obvAngle := hallAngle, obvSpeed := i.hallSpeed,
     obvHallState := i.hallState,
     iA := i.adc_iA, iB := i.adc_iB, iC := i.adc_iC,
     clarkeAlpha := ab.1, clarkeBeta := ab.2,
     tA := duties.1, tB := duties.2.1, tC := duties.2.2 }, duties)

/-- Modelled from the spec (claim C2, sections 4.4 and 4.5): the duty
triple the claim says the fast ISR computes: rotating-frame transform of
the measured currents at the estimated rotor angle, two per-axis PID
regulators against the published torque reference (direct-axis reference
0, quadrature-axis reference scaled by FULLSCALE_THROTTLE), inverse
transform, then the modulator. -/
def MotorISR_claimed (trig : ℚ → ℚ × ℚ) (dt : ℚ) (pidD pidQ : PID_Type)
    (i : MotorInputs) (s : MotorState) : ℚ × ℚ × ℚ :=
  let hallAngle := hall_on_tick s.hallAngle i.hallSpeed dt
  let sc := trig hallAngle
  let albe := FOC_Clarke i.adc_iA i.adc_iB
  let dq := FOC_Park albe.1 albe.2 sc.1 sc.2
  let vd := (foc_pid_step pidD (0 - dq.1)).2
  let vq := (foc_pid_step pidQ
    (i.throttleCommand * FULLSCALE_THROTTLE - dq.2)).2
  let ab := FOC_Ipark vd vq sc.1 sc.2
  FOC_SVM ab.1 ab.2

/-- The duty triple of a `MAIN_MotorISR` call depends only on the debug
ramp angle and the ramp increment (through the trigonometric primitive),
with the fixed debug command (0.75, 0). -/
lemma MAIN_MotorISR_duties (trig : ℚ → ℚ × ℚ) (dt inc : ℚ)
    (i : MotorInputs) (s : MotorState) :
    (MAIN_MotorISR trig dt inc i s).2 =
      FOC_SVM
        (FOC_Ipark (3/4) 0 (trig (FOC_RampGen s.rampAngle inc * 2 - 1)).1
          (trig (FOC_RampGen s.rampAngle inc * 2 - 1)).2).1
        (FOC_Ipark (3/4) 0 (trig (FOC_RampGen s.rampAngle inc * 2 - 1)).1
          (trig (FOC_RampGen s.rampAngle inc * 2 - 1)).2).2 := rfl

/-- All-zero state for the C2 scenario. -/
def motorState0 : MotorState :=
  { timestamp := 0, rampAngle := 0, hallAngle := 0, obvAngle := 0,
    obvSpeed := 0, obvHallState := 1, iA := 0, iB := 0, iC := 0,
    clarkeAlpha := 0, clarkeBeta := 0, tA := 0, tB := 0, tC := 0 }

/-- Zero currents and zero torque reference for the C2 scenario. -/
def motorInputs0 : MotorInputs :=
  { hallSpeed := 0, hallState := 1, adc_iA := 0, adc_iB := 0, adc_iC := 0,
    throttleCommand := 0 }

/-- Inputs differing from `motorInputs0` in the measured currents and
the torque reference. -/
def motorInputs1 : MotorInputs :=
  { hallSpeed := 0, hallState := 1, adc_iA := 7, adc_iB := -3, adc_iC := -4,
    throttleCommand := 1/2 }

/-- C2 (counterexample): at a concrete state and input, the duty triple
actually written by `MAIN_MotorISR` differs from the one the claim's
section 4.4 to 4.5 pipeline would produce: the code drives the modulator
open-loop with the fixed command (0.75, 0) at the debug ramp angle
(first duty 1), while the claimed pipeline on zero currents and zero
torque reference gives all duties 1/2. -/
theorem C2_motor_isr_counterexample :
    (MAIN_MotorISR (fun x => (x, 1)) (1/20000) (1/4)
        motorInputs0 motorState0).2 ≠
      MotorISR_claimed (fun x => (x, 1)) (1/20000) defaultPID defaultPID
        motorInputs0 motorState0 := by
  intro h
  have h1 := congrArg Prod.fst h
  norm_num [MAIN_MotorISR, MotorISR_claimed, FOC_RampGen, fractQ,
    hall_on_tick, FOC_Ipark, FOC_Clarke, FOC_Park, FOC_SVM, foc_pid_step,
    clampR, clamp01, SQRT3, defaultPID, motorState0, motorInputs0,
    FULLSCALE_THROTTLE, max_def, min_def] at h1

/-- C2 (amended): on every fast-context period, `MAIN_MotorISR`
increments the timestamp (uint32 wrap), advances the debug ramp angle
and the rotor estimator's tick, reads the measured phase currents and
rotor observations into the telemetry snapshot, and writes duty
fractions to the PWM outputs; but the duties are produced open-loop: the
inverse rotating-frame transform is applied to the fixed debug command
(0.75, 0) at the debug ramp angle, the section 4.4 current-loop
controller (forward transform of the measured currents plus the two
per-axis PID regulators against the published torque reference) is never
run, and the duties are independent of the measured currents, the hall
observations, and the torque reference (last conjunct). -/
theorem C2_motor_isr_amended (trig : ℚ → ℚ × ℚ) (dt inc : ℚ)
    (i : MotorInputs) (s : MotorState) :
    (MAIN_MotorISR trig dt inc i s).1.timestamp = (s.timestamp + 1) % 2 ^ 32 ∧
    (MAIN_MotorISR trig dt inc i s).1.rampAngle = FOC_RampGen s.rampAngle inc ∧
    (MAIN_MotorISR trig dt inc i s).1.hallAngle =
      hall_on_tick s.hallAngle i.hallSpeed dt ∧
    (MAIN_MotorISR trig dt inc i s).1.obvAngle =
      hall_on_tick s.hallAngle i.hallSpeed dt ∧
    (MAIN_MotorISR trig dt inc i s).1.iA = i.adc_iA ∧
    (MAIN_MotorISR trig dt inc i s).1.iB = i.adc_iB ∧
    (MAIN_MotorISR trig dt inc i s).1.iC = i.adc_iC ∧
    (MAIN_MotorISR trig dt inc i s).1.tA = (MAIN_MotorISR trig dt inc i s).2.1 ∧
    (MAIN_MotorISR trig dt inc i s).2 =
      FOC_SVM
        (FOC_Ipark (3/4) 0 (trig (FOC_RampGen s.rampAngle inc * 2 - 1)).1
          (trig (FOC_RampGen s.rampAngle inc * 2 - 1)).2).1
        (FOC_Ipark (3/4) 0 (trig (FOC_RampGen s.rampAngle inc * 2 - 1)).1
          (trig (FOC_RampGen s.rampAngle inc * 2 - 1)).2).2 ∧
    (∀ (i2 : MotorInputs) (s2 : MotorState), s2.rampAngle = s.rampAngle →
      (MAIN_MotorISR trig dt inc i2 s2).2 = (MAIN_MotorISR trig dt inc i s).2) := by
  refine ⟨rfl, rfl, rfl, rfl, rfl, rfl, rfl, rfl, rfl, ?_⟩
  intro i2 s2 h
  rw [MAIN_MotorISR_duties, MAIN_MotorISR_duties, h]

/-- Witness for C2 (amended): the duties are unchanged when the measured
currents and the torque reference change. -/
theorem C2_motor_isr_amended_witness :
    motorState0.rampAngle = motorState0.rampAngle ∧
    (MAIN_MotorISR (fun x => (x, 1)) (1/20000) (1/4)
        motorInputs1 motorState0).2 =
      (MAIN_MotorISR (fun x => (x, 1)) (1/20000) (1/4)
        motorInputs0 motorState0).2 :=
  ⟨rfl,
   (C2_motor_isr_amended (fun x => (x, 1)) (1/20000) (1/4) motorInputs0
     motorState0).2.2.2.2.2.2.2.2.2 motorInputs1 motorState0 rfl⟩

/-! ## Slow 1 kHz context and the idle loop (main.c, claim C9) -/

/-- External calls made by the periodic contexts and the idle loop:
GPIO writes to the green status LED, the slow-ADC completion routine,
the PWM master-output-enable write, the watchdog feed, and the idle-loop
USB / live-telemetry services. -/
inductive ExtCall where
  | wdtFeed
  | gpioLow
  | gpioHigh
  | adcRegSeq
  | pwmMOE (enabled : Bool)
  | usbCheck
  | liveSend
  deriving DecidableEq

/-- State read and written by `MAIN_AppTimerISR`: the static `led_timer`
(uint16, reset before reaching its range limit), the green LED level,
the throttle channel advanced by the g4 throttle module, and the shared
torque reference `Mctrl.ThrottleCommand`. -/
structure AppState where
  led_timer : ℕ
  gled : Bool
  throttle : ThrottleState
  throttleCommand : ℚ
  deriving DecidableEq

/-- One call of `MAIN_AppTimerISR` (main.c lines 149-173), called at
1 kHz: advance the LED timer (LED low at 500, high and timer reset at
1000), run the slow-ADC completion, write the PWM master output enable
from the debug flag, advance the throttle conditioner and publish its
command into `Mctrl.ThrottleCommand`.  `THROTTLE_Process` and
`THROTTLE_GetCommand` (the ebike-g4 throttle module, not under src/) are
modelled from the spec as one advance of the section 4.2 conditioner on
the current raw sample, embodied by `throttle_process`.  The returned
list holds the external calls the ISR performs, in program order; note
that it never contains a watchdog feed. -/
def MAIN_AppTimerISR (dbgPwmEnable : Bool) (raw vref : ℚ) (s : AppState) :
    AppState × List ExtCall :=
  let t := s.led_timer + 1
  let ledCalls : List ExtCall :=
    (if t = 500 then [ExtCall.gpioLow] else []) ++
    (if 1000 ≤ t then [ExtCall.gpioHigh] else [])
  let gled1 := if t = 500 then false else s.gled
  let gled2 := if 1000 ≤ t then true else gled1
  let t2 := if 1000 ≤ t then 0 else t
  let thr := throttle_process raw vref s.throttle
  ({ led_timer := t2, gled := gled2, throttle := thr.1,
     throttleCommand := thr.2 },
   ledCalls ++ [ExtCall.adcRegSeq, ExtCall.pwmMOE dbgPwmEnable])

/-- One iteration of the idle loop in `main` (main.c lines 139-145): the
watchdog is fed here, in the background context, not in either periodic
interrupt context. -/
def MAIN_loop_body : List ExtCall :=
  [ExtCall.wdtFeed, ExtCall.usbCheck, ExtCall.liveSend]

/-- Concrete slow-context state for the C9 counterexample. -/
def appState0 : AppState :=
  { led_timer := 0, gled := true,
    throttle := ⟨1001, 17/20, 11/5, 20/27, false, 0⟩, throttleCommand := 0 }

/-- C9 (counterexample): the claim, read at a concrete call (led timer
0, a calibrated throttle channel, input 1.5 V), asserts that
`MAIN_AppTimerISR` advances the conditioner AND publishes the command
AND toggles the status indicator AND feeds the watchdog; it is false:
this call performs no LED write and no call of the ISR ever feeds the
watchdog (the feed happens in the idle loop of `main`). -/
theorem C9_apptimer_counterexample :
    ¬ ((MAIN_AppTimerISR false (3/2) 3 appState0).1.throttle =
         (throttle_process (3/2) 3 appState0.throttle).1 ∧
       (MAIN_AppTimerISR false (3/2) 3 appState0).1.throttleCommand =
         (throttle_process (3/2) 3 appState0.throttle).2 ∧
       (ExtCall.gpioLow ∈ (MAIN_AppTimerISR false (3/2) 3 appState0).2 ∨
        ExtCall.gpioHigh ∈ (MAIN_AppTimerISR false (3/2) 3 appState0).2) ∧
       ExtCall.wdtFeed ∈ (MAIN_AppTimerISR false (3/2) 3 appState0).2) := by
  intro h
  have h4 := h.2.2.2
  have hlist : (MAIN_AppTimerISR false (3/2) 3 appState0).2 =
      [ExtCall.adcRegSeq, ExtCall.pwmMOE false] := by
    norm_num [MAIN_AppTimerISR, appState0]
  rw [hlist] at h4
  simp at h4

/-- C9 (amended): on every 1 kHz period, `MAIN_AppTimerISR` advances the
Throttle Conditioner and publishes the resulting torque reference into
the shared throttle command consumed by the fast context; the status
indicator is not toggled each period but driven by a timer (LED low
exactly when the incremented timer reaches 500, LED high and timer reset
when it reaches 1000, a 1 Hz blink); and the ISR never feeds the
watchdog: the liveness signal to the external watchdog collaborator is
fed by the idle loop of `main`. -/
theorem C9_apptimer_amended (dbg : Bool) (raw vref : ℚ) (s : AppState) :
    (MAIN_AppTimerISR dbg raw vref s).1.throttle =
      (throttle_process raw vref s.throttle).1 ∧
    (MAIN_AppTimerISR dbg raw vref s).1.throttleCommand =
      (throttle_process raw vref s.throttle).2 ∧
    ExtCall.wdtFeed ∉ (MAIN_AppTimerISR dbg raw vref s).2 ∧
    ExtCall.wdtFeed ∈ MAIN_loop_body ∧
    (ExtCall.gpioLow ∈ (MAIN_AppTimerISR dbg raw vref s).2 ↔
      s.led_timer + 1 = 500) ∧
    (ExtCall.gpioHigh ∈ (MAIN_AppTimerISR dbg raw vref s).2 ↔
      1000 ≤ s.led_timer + 1) ∧
    (MAIN_AppTimerISR dbg raw vref s).1.led_timer =
      (if 1000 ≤ s.led_timer + 1 then 0 else s.led_timer + 1) := by
  refine ⟨rfl, rfl, ?_, ?_, ?_, ?_, rfl⟩
  · unfold MAIN_AppTimerISR
    dsimp only
    split_ifs <;> simp
  · simp [MAIN_loop_body]
  · unfold MAIN_AppTimerISR
    dsimp only
    split_ifs with h1 h2 <;> simp_all
  · unfold MAIN_AppTimerISR
    dsimp only
    split_ifs with h1 h2 <;> simp_all

/-- Witness for C9 (amended) at a concrete call. -/
theorem C9_apptimer_amended_witness :
    ExtCall.wdtFeed ∉ (MAIN_AppTimerISR false (3/2) 3 appState0).2 ∧
    ExtCall.wdtFeed ∈ MAIN_loop_body ∧
    (MAIN_AppTimerISR false (3/2) 3 appState0).1.throttleCommand =
      (throttle_process (3/2) 3 appState0.throttle).2 :=
  ⟨(C9_apptimer_amended false (3/2) 3 appState0).2.2.1,
   (C9_apptimer_amended false (3/2) 3 appState0).2.2.2.1,
   (C9_apptimer_amended false (3/2) 3 appState0).2.1⟩
